import Mathlib

/-!
Verification of the PokemonCatcherApp repository (app.py and
pokemon_catchrate.py).  The numeric catch-rate formulas are embedded over ℝ
(Python floats idealised as reals, `**` as `Real.rpow`); `round(x, 2)` is
modelled as rounding `100 * x` to the nearest integer (ties are irrelevant to
every statement below).  The mutable dictionaries (`pokemon_dict`,
`pokemonchain_dict`, `chain_dict`) are embedded as explicit state records, and
each Dash trigger branch becomes a case of a state-transition function.
-/

namespace PokemonCatcher

/-- Model of Python `round(x, 2)`: round `100 * x` to the nearest integer and
divide by 100.  (Python uses round-half-even; no statement below evaluates the
function at a tie, where the two conventions could differ.) -/
noncomputable def round2 (x : ℝ) : ℝ := ((round (100 * x) : ℤ) : ℝ) / 100

namespace App

/-- The intermediate `a` computed by `catchrate_calc` in `app.py` (lines
71-78), as a function of the already-resolved table values:
`times_caught = min(100, ...)` followed by
`a = 1.25 * catch_rate**(1/1.85) * (10000/((100-times_caught)/100*cp+1))**(1/4)
   * ball**(3/2) * (technique*berry)**(1/2)` (technique and berry combined
multiplicatively). -/
noncomputable def scale (catchRate : ℝ) (times_caught_stored : ℕ)
    (combat_power ballRate techValue berryValue : ℝ) : ℝ :=
  let times_caught : ℝ := min 100 (times_caught_stored : ℝ)
  1.25 * catchRate ^ ((1 : ℝ) / 1.85)
    * (10000 / ((100 - times_caught) / 100 * combat_power + 1)) ^ ((1 : ℝ) / 4)
    * ballRate ^ ((3 : ℝ) / 2)
    * (techValue * berryValue) ^ ((1 : ℝ) / 2)

/-- `catchrate_calc` of `app.py` (lines 58-95), the multiplicative variant:
`b = 65535 / (255/a)**(1/5.33)`, `catch_rate = (b/65535)*100`, clamped by
`min(100, ...)` and rounded to two decimals.  Faithful on the domain where
the Python float arithmetic completes: positive table values and a combat
power keeping `(100 - times_caught)/100 * cp + 1` positive (outside it the
Python call raises `ZeroDivisionError` or produces non-real values instead of
returning); every theorem below quantifies only into that domain. -/
noncomputable def catchrate_calc (catchRate : ℝ) (times_caught_stored : ℕ)
    (combat_power ballRate techValue berryValue : ℝ) : ℝ :=
  let a := scale catchRate times_caught_stored combat_power ballRate techValue berryValue
  let b := 65535 / (255 / a) ^ ((1 : ℝ) / 5.33)
  let catch_rate := b / 65535 * 100
  round2 (min 100 catch_rate)

end App

namespace PC

/-- The intermediate `a` computed by `catchrate_calc` in
`pokemon_catchrate.py` (lines 67-74); identical to the `app.py` scale factor
except that technique and berry are combined additively:
`(technique + berry)**(1/2)`. -/
noncomputable def scale (catchRate : ℝ) (times_caught_stored : ℕ)
    (combat_power ballRate techValue berryValue : ℝ) : ℝ :=
  let times_caught : ℝ := min 100 (times_caught_stored : ℝ)
  1.25 * catchRate ^ ((1 : ℝ) / 1.85)
    * (10000 / ((100 - times_caught) / 100 * combat_power + 1)) ^ ((1 : ℝ) / 4)
    * ballRate ^ ((3 : ℝ) / 2)
    * (techValue + berryValue) ^ ((1 : ℝ) / 2)

/-- `catchrate_calc` of `pokemon_catchrate.py` (lines 54-84), the additive
variant: `b = 65535 / a**(5/16)`, `catch_rate = (1 - b/65536)*100`, clamped by
`min(100, ...)` and rounded to two decimals.  Faithful on the same domain as
the `app.py` variant (outside it the Python call raises `ZeroDivisionError`,
or `**` on a negative base promotes to complex and `min` raises `TypeError`,
instead of returning); every theorem below quantifies only into that
domain. -/
noncomputable def catchrate_calc (catchRate : ℝ) (times_caught_stored : ℕ)
    (combat_power ballRate techValue berryValue : ℝ) : ℝ :=
  let a := scale catchRate times_caught_stored combat_power ballRate techValue berryValue
  let b := 65535 / a ^ ((5 : ℝ) / 16)
  let catch_rate := (1 - b / 65536) * 100
  round2 (min 100 catch_rate)

end PC

/-- Per-species record of the `pokemon` table: the fields read by the
catch-rate computation (`catch_rate`, `times_caught`); sprite/cry/shiny asset
fields are presentation-only and omitted. -/
structure SpeciesRec where
  catch_rate : ℝ
  times_caught : ℕ

/-- The loaded database tables: `pokemon_dict`, `ballrate_dict`,
`technique_dict`, `berry_dict`.  The technique table keeps its iteration
order (the code iterates `for technique in technique_dict`), the others are
keyed lookups. -/
structure Database where
  pokemon : String → Option SpeciesRec
  ball_rate : String → Option ℝ
  technique : List (String × ℝ)
  berry : String → Option ℝ

namespace App

/-- `catch_pokemon` of `app.py` (lines 45-112): validates the pokemon, ball
and berry keys in that order; on a missing key it prints
"Pokemon/Ball/Berry not found" and returns `None`; otherwise it returns one
`(technique, catchrate_calc technique)` row per entry of the technique table.
The result is the pair (printed messages, returned value). -/
noncomputable def catch_pokemon (db : Database) (pokemon : String)
    (combat_power : ℝ) (ball berry : String) :
    List String × Option (List (String × ℝ)) :=
  match db.pokemon pokemon with
  | none => (["Pokemon not found"], none)
  | some sp =>
    match db.ball_rate ball with
    | none => (["Ball not found"], none)
    | some ballRate =>
      match db.berry berry with
      | none => (["Berry not found"], none)
      | some berryValue =>
        ([], some (db.technique.map fun t =>
          (t.1, catchrate_calc sp.catch_rate sp.times_caught combat_power
            ballRate t.2 berryValue)))

/-- `catchring_color` of `app.py` (lines 114-134); the `color_thresholds`
dictionary entries `orange ↦ 70.0`, `yellow ↦ 75.0`, `green ↦ 80.0` are
inlined.  Python's chained `70 <= cr < 75` is the conjunction of the two
comparisons. -/
noncomputable def catchring_color (catch_rate : ℝ) : String :=
  if catch_rate < 70 then "red"
  else if 70 ≤ catch_rate ∧ catch_rate < 75 then "orange"
  else if 75 ≤ catch_rate ∧ catch_rate < 80 then "gold"
  else "green"

end App

namespace PC

/-- `catch_pokemon` of `pokemon_catchrate.py` (lines 41-101): identical
validation to the `app.py` variant, but each row uses the additive
`catchrate_calc`. -/
noncomputable def catch_pokemon (db : Database) (pokemon : String)
    (combat_power : ℝ) (ball berry : String) :
    List String × Option (List (String × ℝ)) :=
  match db.pokemon pokemon with
  | none => (["Pokemon not found"], none)
  | some sp =>
    match db.ball_rate ball with
    | none => (["Ball not found"], none)
    | some ballRate =>
      match db.berry berry with
      | none => (["Berry not found"], none)
      | some berryValue =>
        ([], some (db.technique.map fun t =>
          (t.1, catchrate_calc sp.catch_rate sp.times_caught combat_power
            ballRate t.2 berryValue)))

/-- `catchring_color` of `pokemon_catchrate.py` (lines 103-123); textually the
same function as in `app.py`. -/
noncomputable def catchring_color (catch_rate : ℝ) : String :=
  if catch_rate < 70 then "red"
  else if 70 ≤ catch_rate ∧ catch_rate < 75 then "orange"
  else if 75 ≤ catch_rate ∧ catch_rate < 80 then "gold"
  else "green"

end PC

/-- Which Dash control fired (`ctx.triggered_id`): the `+` button, the
chain-reset button, the shiny radio, or any other input. -/
inductive Trigger where
  | add1_btn
  | resetchain_btn
  | shinyradio
  | other

/-- `pokemonname.split("-")[-1]`: the part of the species id after its last
separator. -/
def lastNamePart (s : String) : String := (s.splitOn "-").getLastD s

namespace App

/-- The `letsgochain` dictionary of `app.py` (`pokemonname`, `chainvalue`,
`chaintext`). -/
structure Chain where
  pokemonname : String
  chainvalue : ℕ
  chaintext : String

/-- The mutable state touched by `triggers_handler` of `app.py`: the
per-species `times_caught` and `shiny_caught` fields of `pokemon_dict`, and
`pokemonchain_dict`. -/
structure State where
  times_caught : String → ℕ
  shiny_caught : String → String
  chain : Chain

/-- `triggers_handler` of `app.py` (lines 148-182) as a state transition.
`add1_btn`: increment `times_caught[pokemonname]`; if the chain's
`pokemonname` differs, set it to `pokemonname` and zero `chainvalue`; then
increment `chainvalue` and set `chaintext` to
`f"Chain of {chainvalue} {pokemonname.split('-')[-1]}!"`.
`resetchain_btn`: zero `chainvalue` and set `chaintext` to "No chain".
`shinyradio`: store the radio value.  (In the source the first branch tests
the `trigger` parameter and the others test `ctx.triggered_id`; the caller
passes `ctx.triggered_id` as `trigger`, so both test the same value.)  The
trailing JSON dump is persistence I/O outside the model. -/
def triggers_handler (trigger : Trigger) (pokemonname shinyradio : String)
    (st : State) : State :=
  match trigger with
  | .add1_btn =>
    let tc := Function.update st.times_caught pokemonname
      (st.times_caught pokemonname + 1)
    let c0 := if st.chain.pokemonname ≠ pokemonname then
        { st.chain with pokemonname := pokemonname, chainvalue := 0 }
      else st.chain
    let v := c0.chainvalue + 1
    let suffix := lastNamePart pokemonname
    { st with
      times_caught := tc
      chain := { pokemonname := c0.pokemonname, chainvalue := v,
                 chaintext := s!"Chain of {v} {suffix}!" } }
  | .resetchain_btn =>
    { st with chain := { st.chain with chainvalue := 0, chaintext := "No chain" } }
  | .shinyradio =>
    { st with shiny_caught := Function.update st.shiny_caught pokemonname shinyradio }
  | .other => st

end App

namespace PC

/-- The `chain_dict` of `pokemon_catchrate.py` (`chaintext`, `current_catch`,
`last_catch`, `chainvalue`); `chaintext_init` is the constant "No chain". -/
structure Chain where
  chaintext : String
  current_catch : String
  last_catch : String
  chainvalue : ℕ

/-- The mutable state touched by the trigger section of `update_catchrates`
in `pokemon_catchrate.py`. -/
structure State where
  times_caught : String → ℕ
  shiny_caught : String → String
  chain : Chain

/-- The trigger-dispatch section of `update_catchrates` in
`pokemon_catchrate.py` (lines 259-287) as a state transition.
`add1_btn`: increment `times_caught[pokemonname]`; set `current_catch`; if
`last_catch != current_catch`, zero `chainvalue` and set `last_catch`; then
increment `chainvalue`; set `chaintext` to the chain message when
`chainvalue > 0`, else to the "No chain" initial text.
`resetchain_btn`: zero `chainvalue`, restore the "No chain" text.
`shinyradio`: store the radio value.  JSON dumps are persistence I/O outside
the model. -/
def update_catchrates_triggers (trigger : Trigger)
    (pokemonname shinyradio : String) (st : State) : State :=
  match trigger with
  | .add1_btn =>
    let tc := Function.update st.times_caught pokemonname
      (st.times_caught pokemonname + 1)
    let c0 : Chain := { st.chain with current_catch := pokemonname }
    let c1 : Chain := if c0.last_catch ≠ c0.current_catch then
        { c0 with chainvalue := 0, last_catch := pokemonname }
      else c0
    let c2 : Chain := { c1 with chainvalue := c1.chainvalue + 1 }
    let suffix := lastNamePart pokemonname
    let v := c2.chainvalue
    let c3 := if c2.chainvalue > 0 then
        { c2 with chaintext := s!"Chain of {v} {suffix}!" }
      else { c2 with chaintext := "No chain" }
    { st with times_caught := tc, chain := c3 }
  | .resetchain_btn =>
    { st with chain := { st.chain with chainvalue := 0, chaintext := "No chain" } }
  | .shinyradio =>
    { st with shiny_caught := Function.update st.shiny_caught pokemonname shinyradio }
  | .other => st

end PC

/-! ### Helper lemmas: rational-exponent real powers via integer powers -/

theorem rpow_pow_of_mul_eq (x : ℝ) (hx : 0 ≤ x) (e : ℝ) (p q : ℕ)
    (h : e * q = p) : (x ^ e) ^ q = x ^ p := by
  rw [← Real.rpow_natCast (x ^ e) q, ← Real.rpow_mul hx, h, Real.rpow_natCast]

theorem rpow_le_of_pow_le {x u e : ℝ} {p q : ℕ} (hx : 0 ≤ x) (hu : 0 ≤ u)
    (hq : q ≠ 0) (he : e * q = p) (h : x ^ p ≤ u ^ q) : x ^ e ≤ u := by
  refine le_of_pow_le_pow_left₀ hq hu ?_
  rw [rpow_pow_of_mul_eq x hx e p q he]
  exact h

theorem le_rpow_of_pow_le {x l e : ℝ} {p q : ℕ} (hx : 0 ≤ x) (_hl : 0 ≤ l)
    (hq : q ≠ 0) (he : e * q = p) (h : l ^ q ≤ x ^ p) : l ≤ x ^ e := by
  refine le_of_pow_le_pow_left₀ hq (Real.rpow_nonneg hx e) ?_
  rw [rpow_pow_of_mul_eq x hx e p q he]
  exact h

theorem rpow_eq_of_pow_eq {x y e : ℝ} {p q : ℕ} (hx : 0 ≤ x) (hy : 0 ≤ y)
    (hq : q ≠ 0) (he : e * q = p) (h : y ^ q = x ^ p) : x ^ e = y :=
  le_antisymm (rpow_le_of_pow_le hx hy hq he h.ge)
    (le_rpow_of_pow_le hx hy hq he h.le)

/-! ### Helper lemmas: the two-decimal rounding -/

theorem round2_mono {x y : ℝ} (h : x ≤ y) : round2 x ≤ round2 y := by
  unfold round2
  have hr : round (100 * x) ≤ round (100 * y) := by
    rw [round_eq, round_eq]
    exact Int.floor_le_floor (by linarith)
  have : ((round (100 * x) : ℤ) : ℝ) ≤ ((round (100 * y) : ℤ) : ℝ) := by
    exact_mod_cast hr
  linarith

theorem round2_le (x : ℝ) : round2 x ≤ x + 1 / 200 := by
  unfold round2
  have h := abs_sub_round (100 * x)
  rw [abs_le] at h
  have := h.1
  linarith

theorem le_round2 (x : ℝ) : x - 1 / 200 ≤ round2 x := by
  unfold round2
  have h := abs_sub_round (100 * x)
  rw [abs_le] at h
  have := h.2
  linarith

theorem round2_nonneg {x : ℝ} (h : 0 ≤ x) : 0 ≤ round2 x := by
  unfold round2
  have h0 : (0 : ℤ) ≤ round (100 * x) := by
    rw [round_eq]
    exact Int.floor_nonneg.mpr (by linarith)
  have h1 : (0 : ℝ) ≤ ((round (100 * x) : ℤ) : ℝ) := by exact_mod_cast h0
  exact div_nonneg h1 (by norm_num)

theorem round2_le_hundred {x : ℝ} (h : x ≤ 100) : round2 x ≤ 100 := by
  have h1 : round2 x ≤ round2 100 := round2_mono h
  have h2 : round2 (100 : ℝ) = 100 := by
    unfold round2
    have : (100 : ℝ) * 100 = ((10000 : ℤ) : ℝ) := by norm_num
    rw [this, round_intCast]
    norm_num
  linarith

theorem round2_eq_div (x : ℝ) (n : ℤ) (h1 : (n : ℝ) ≤ 100 * x + 1 / 2)
    (h2 : 100 * x + 1 / 2 < n + 1) : round2 x = (n : ℝ) / 100 := by
  unfold round2
  rw [round_eq, Int.floor_eq_iff.mpr ⟨h1, h2⟩]

/-! ### Helper lemmas: the scale factor under the times-caught cap -/

theorem App.scale_cap {cr cp ball tech berry : ℝ} {tc : ℕ} (h : 100 ≤ tc) :
    App.scale cr tc cp ball tech berry = App.scale cr 100 cp ball tech berry := by
  have hmin : min (100 : ℝ) ((tc : ℕ) : ℝ) = 100 :=
    min_eq_left (by exact_mod_cast h)
  simp only [App.scale, hmin]
  norm_num

theorem App.scale_cp_drop {cr ball tech berry cp1 cp2 : ℝ} {tc : ℕ}
    (h : 100 ≤ tc) :
    App.scale cr tc cp1 ball tech berry = App.scale cr tc cp2 ball tech berry := by
  have hmin : min (100 : ℝ) ((tc : ℕ) : ℝ) = 100 :=
    min_eq_left (by exact_mod_cast h)
  simp only [App.scale, hmin]
  norm_num

/-! ### Helper lemmas: positivity and monotonicity of the scale factor -/

theorem App.scale_eq_app (cr : ℝ) (tc : ℕ) (cp ball tech berry : ℝ) :
    App.scale cr tc cp ball tech berry
      = 1.25 * cr ^ ((1 : ℝ) / 1.85)
        * (10000 / ((100 - min 100 ((tc : ℕ) : ℝ)) / 100 * cp + 1)) ^ ((1 : ℝ) / 4)
        * ball ^ ((3 : ℝ) / 2) * (tech * berry) ^ ((1 : ℝ) / 2) := rfl

theorem PC.scale_eq_pc (cr : ℝ) (tc : ℕ) (cp ball tech berry : ℝ) :
    PC.scale cr tc cp ball tech berry
      = 1.25 * cr ^ ((1 : ℝ) / 1.85)
        * (10000 / ((100 - min 100 ((tc : ℕ) : ℝ)) / 100 * cp + 1)) ^ ((1 : ℝ) / 4)
        * ball ^ ((3 : ℝ) / 2) * (tech + berry) ^ ((1 : ℝ) / 2) := rfl

theorem inner_pos (tc : ℕ) {cp : ℝ} (hcp : 0 < cp) :
    0 < (100 - min 100 ((tc : ℕ) : ℝ)) / 100 * cp + 1 := by
  have h1 : min (100 : ℝ) ((tc : ℕ) : ℝ) ≤ 100 := min_le_left _ _
  have h2 : (0 : ℝ) ≤ (100 - min 100 ((tc : ℕ) : ℝ)) / 100 * cp :=
    mul_nonneg (div_nonneg (by linarith) (by norm_num)) hcp.le
  linarith

theorem App.scale_pos_app {cr cp ball tech berry : ℝ} (tc : ℕ) (hcr : 0 < cr)
    (hcp : 0 < cp) (hball : 0 < ball) (htech : 0 < tech) (hberry : 0 < berry) :
    0 < App.scale cr tc cp ball tech berry := by
  rw [App.scale_eq_app]
  have hX : (0 : ℝ) < 10000 / ((100 - min 100 ((tc : ℕ) : ℝ)) / 100 * cp + 1) :=
    div_pos (by norm_num) (inner_pos tc hcp)
  have h0 : (0 : ℝ) < 1.25 := by norm_num
  have h1 : (0 : ℝ) < cr ^ ((1 : ℝ) / 1.85) := Real.rpow_pos_of_pos hcr _
  have h2 := Real.rpow_pos_of_pos hX ((1 : ℝ) / 4)
  have h3 := Real.rpow_pos_of_pos hball ((3 : ℝ) / 2)
  have h4 := Real.rpow_pos_of_pos (mul_pos htech hberry) ((1 : ℝ) / 2)
  exact mul_pos (mul_pos (mul_pos (mul_pos h0 h1) h2) h3) h4

theorem PC.scale_pos_pc {cr cp ball tech berry : ℝ} (tc : ℕ) (hcr : 0 < cr)
    (hcp : 0 < cp) (hball : 0 < ball) (htech : 0 < tech) (hberry : 0 < berry) :
    0 < PC.scale cr tc cp ball tech berry := by
  rw [PC.scale_eq_pc]
  have hX : (0 : ℝ) < 10000 / ((100 - min 100 ((tc : ℕ) : ℝ)) / 100 * cp + 1) :=
    div_pos (by norm_num) (inner_pos tc hcp)
  have h0 : (0 : ℝ) < 1.25 := by norm_num
  have h1 : (0 : ℝ) < cr ^ ((1 : ℝ) / 1.85) := Real.rpow_pos_of_pos hcr _
  have h2 := Real.rpow_pos_of_pos hX ((1 : ℝ) / 4)
  have h3 := Real.rpow_pos_of_pos hball ((3 : ℝ) / 2)
  have h4 := Real.rpow_pos_of_pos (add_pos htech hberry) ((1 : ℝ) / 2)
  exact mul_pos (mul_pos (mul_pos (mul_pos h0 h1) h2) h3) h4

theorem App.scale_mono_app {cr cp ball ball' tech tech' berry berry' : ℝ} (tc : ℕ)
    (hcr : 0 < cr) (hcp : 0 < cp) (hball : 0 < ball) (htech : 0 < tech)
    (hberry : 0 < berry) (hb : ball ≤ ball') (ht : tech ≤ tech')
    (hbe : berry ≤ berry') :
    App.scale cr tc cp ball tech berry ≤ App.scale cr tc cp ball' tech' berry' := by
  rw [App.scale_eq_app, App.scale_eq_app]
  set X := 10000 / ((100 - min 100 ((tc : ℕ) : ℝ)) / 100 * cp + 1) with hXdef
  have hX : (0 : ℝ) < X := div_pos (by norm_num) (inner_pos tc hcp)
  have hA : (0 : ℝ) ≤ 1.25 * cr ^ ((1 : ℝ) / 1.85) * X ^ ((1 : ℝ) / 4) :=
    mul_nonneg (mul_nonneg (by norm_num) (Real.rpow_pos_of_pos hcr _).le)
      (Real.rpow_pos_of_pos hX _).le
  have h3 : ball ^ ((3 : ℝ) / 2) ≤ ball' ^ ((3 : ℝ) / 2) :=
    Real.rpow_le_rpow hball.le hb (by norm_num)
  have h4 : (tech * berry) ^ ((1 : ℝ) / 2) ≤ (tech' * berry') ^ ((1 : ℝ) / 2) :=
    Real.rpow_le_rpow (mul_pos htech hberry).le
      (mul_le_mul ht hbe hberry.le (le_trans htech.le ht)) (by norm_num)
  exact mul_le_mul (mul_le_mul_of_nonneg_left h3 hA) h4
    (Real.rpow_pos_of_pos (mul_pos htech hberry) _).le
    (mul_nonneg hA (Real.rpow_pos_of_pos (lt_of_lt_of_le hball hb) _).le)

theorem PC.scale_mono_pc {cr cp ball ball' tech tech' berry berry' : ℝ} (tc : ℕ)
    (hcr : 0 < cr) (hcp : 0 < cp) (hball : 0 < ball) (htech : 0 < tech)
    (hberry : 0 < berry) (hb : ball ≤ ball') (ht : tech ≤ tech')
    (hbe : berry ≤ berry') :
    PC.scale cr tc cp ball tech berry ≤ PC.scale cr tc cp ball' tech' berry' := by
  rw [PC.scale_eq_pc, PC.scale_eq_pc]
  set X := 10000 / ((100 - min 100 ((tc : ℕ) : ℝ)) / 100 * cp + 1) with hXdef
  have hX : (0 : ℝ) < X := div_pos (by norm_num) (inner_pos tc hcp)
  have hA : (0 : ℝ) ≤ 1.25 * cr ^ ((1 : ℝ) / 1.85) * X ^ ((1 : ℝ) / 4) :=
    mul_nonneg (mul_nonneg (by norm_num) (Real.rpow_pos_of_pos hcr _).le)
      (Real.rpow_pos_of_pos hX _).le
  have h3 : ball ^ ((3 : ℝ) / 2) ≤ ball' ^ ((3 : ℝ) / 2) :=
    Real.rpow_le_rpow hball.le hb (by norm_num)
  have h4 : (tech + berry) ^ ((1 : ℝ) / 2) ≤ (tech' + berry') ^ ((1 : ℝ) / 2) :=
    Real.rpow_le_rpow (add_pos htech hberry).le (by linarith) (by norm_num)
  exact mul_le_mul (mul_le_mul_of_nonneg_left h3 hA) h4
    (Real.rpow_pos_of_pos (add_pos htech hberry) _).le
    (mul_nonneg hA (Real.rpow_pos_of_pos (lt_of_lt_of_le hball hb) _).le)

theorem App.catchrate_calc_mono_app {cr cp ball tech berry ball' tech' berry' : ℝ}
    {tc : ℕ} (hpos : 0 < App.scale cr tc cp ball tech berry)
    (hle : App.scale cr tc cp ball tech berry
            ≤ App.scale cr tc cp ball' tech' berry') :
    App.catchrate_calc cr tc cp ball tech berry
      ≤ App.catchrate_calc cr tc cp ball' tech' berry' := by
  simp only [App.catchrate_calc]
  set s := App.scale cr tc cp ball tech berry with hsdef
  set s' := App.scale cr tc cp ball' tech' berry' with hsdef'
  have hs' : 0 < s' := lt_of_lt_of_le hpos hle
  have h1 : 255 / s' ≤ 255 / s := div_le_div_of_nonneg_left (by norm_num) hpos hle
  have h2 : (255 / s') ^ ((1 : ℝ) / 5.33) ≤ (255 / s) ^ ((1 : ℝ) / 5.33) :=
    Real.rpow_le_rpow (div_pos (by norm_num) hs').le h1 (by norm_num)
  have h3 : (0 : ℝ) < (255 / s') ^ ((1 : ℝ) / 5.33) :=
    Real.rpow_pos_of_pos (div_pos (by norm_num) hs') _
  have h4 : (65535 : ℝ) / (255 / s) ^ ((1 : ℝ) / 5.33)
      ≤ 65535 / (255 / s') ^ ((1 : ℝ) / 5.33) :=
    div_le_div_of_nonneg_left (by norm_num) h3 h2
  have h5 : (65535 : ℝ) / (255 / s) ^ ((1 : ℝ) / 5.33) / 65535 * 100
      ≤ 65535 / (255 / s') ^ ((1 : ℝ) / 5.33) / 65535 * 100 := by linarith
  exact round2_mono (min_le_min (le_refl 100) h5)

theorem PC.catchrate_calc_mono_pc {cr cp ball tech berry ball' tech' berry' : ℝ}
    {tc : ℕ} (hpos : 0 < PC.scale cr tc cp ball tech berry)
    (hle : PC.scale cr tc cp ball tech berry
            ≤ PC.scale cr tc cp ball' tech' berry') :
    PC.catchrate_calc cr tc cp ball tech berry
      ≤ PC.catchrate_calc cr tc cp ball' tech' berry' := by
  simp only [PC.catchrate_calc]
  set s := PC.scale cr tc cp ball tech berry with hsdef
  set s' := PC.scale cr tc cp ball' tech' berry' with hsdef'
  have ht : s ^ ((5 : ℝ) / 16) ≤ s' ^ ((5 : ℝ) / 16) :=
    Real.rpow_le_rpow hpos.le hle (by norm_num)
  have ht0 : (0 : ℝ) < s ^ ((5 : ℝ) / 16) := Real.rpow_pos_of_pos hpos _
  have h4 : (65535 : ℝ) / s' ^ ((5 : ℝ) / 16) ≤ 65535 / s ^ ((5 : ℝ) / 16) :=
    div_le_div_of_nonneg_left (by norm_num) ht0 ht
  have h5 : (1 - 65535 / s ^ ((5 : ℝ) / 16) / 65536) * 100
      ≤ (1 - 65535 / s' ^ ((5 : ℝ) / 16) / 65536) * 100 := by linarith
  exact round2_mono (min_le_min (le_refl 100) h5)

/-- An empty database: every lookup misses. -/
def emptyDb : Database := ⟨fun _ => none, fun _ => none, [], fun _ => none⟩

/-- A database with exactly one pokemon, one ball, one technique and one
berry. -/
noncomputable def oneMonDb : Database :=
  { pokemon := fun s => if s = "pikachu" then some ⟨190, 0⟩ else none
    ball_rate := fun s => if s = "pokeball" then some 1 else none
    technique := [("none", 1)]
    berry := fun s => if s = "none" then some 1 else none }

theorem PC.scale_cex_eval : PC.scale 1 0 99999999 1 (1 / 2) (1 / 2) = 0.125 := by
  rw [PC.scale_eq_pc]
  have hX : (10000 : ℝ) / ((100 - min 100 ((0 : ℕ) : ℝ)) / 100 * 99999999 + 1)
      = 1 / 10000 := by norm_num
  have e2 : ((1 : ℝ) / 10000) ^ ((1 : ℝ) / 4) = 1 / 10 :=
    @rpow_eq_of_pow_eq (1 / 10000) (1 / 10) ((1 : ℝ) / 4) 1 4 (by norm_num)
      (by norm_num) (by norm_num) (by norm_num) (by norm_num)
  rw [hX, e2]
  norm_num [Real.one_rpow]

theorem PC.scale_unit_ge_one : 1 ≤ PC.scale 1 100 1 1 1 1 := by
  rw [PC.scale_eq_pc]
  have hmin : min (100 : ℝ) ((100 : ℕ) : ℝ) = 100 := by norm_num
  rw [hmin]
  have hX : (10000 : ℝ) / ((100 - (100 : ℝ)) / 100 * 1 + 1) = 10000 := by norm_num
  rw [hX]
  have e2 : (10000 : ℝ) ^ ((1 : ℝ) / 4) = 10 :=
    @rpow_eq_of_pow_eq 10000 10 ((1 : ℝ) / 4) 1 4 (by norm_num) (by norm_num)
      (by norm_num) (by norm_num) (by norm_num)
  rw [e2, Real.one_rpow, Real.one_rpow]
  have e4 : (1 : ℝ) ≤ ((1 : ℝ) + 1) ^ ((1 : ℝ) / 2) :=
    @le_rpow_of_pow_le (1 + 1) 1 ((1 : ℝ) / 2) 1 2 (by norm_num) (by norm_num)
      (by norm_num) (by norm_num) (by norm_num)
  nlinarith [e4]

/-! ### Claims -/

/-- C1 (counterexample): the additive variant (`pokemon_catchrate.py`) can
return a negative probability on a valid input: base catch rate 1, never
caught, combat power 99999999, ball multiplier 1, technique and berry
multipliers 1/2 — all identifiers resolved, combat power positive — yet the
returned value is below 0, so the result does not lie in [0, 100]. -/
theorem C1_counterexample : PC.catchrate_calc 1 0 99999999 1 (1 / 2) (1 / 2) < 0 := by
  simp only [PC.catchrate_calc, PC.scale_cex_eval]
  have hpos : (0 : ℝ) < (0.125 : ℝ) ^ ((5 : ℝ) / 16) :=
    Real.rpow_pos_of_pos (by norm_num) _
  have hub : (0.125 : ℝ) ^ ((5 : ℝ) / 16) ≤ 53 / 100 :=
    @rpow_le_of_pow_le 0.125 (53 / 100) ((5 : ℝ) / 16) 5 16 (by norm_num)
      (by norm_num) (by norm_num) (by norm_num) (by norm_num)
  have hb : (65535 : ℝ) / (53 / 100) ≤ 65535 / (0.125 : ℝ) ^ ((5 : ℝ) / 16) :=
    div_le_div_of_nonneg_left (by norm_num) hpos hub
  have hpre : (1 - 65535 / (0.125 : ℝ) ^ ((5 : ℝ) / 16) / 65536) * 100 ≤ -88 := by
    linarith
  have hmin : min (100 : ℝ)
      ((1 - 65535 / (0.125 : ℝ) ^ ((5 : ℝ) / 16) / 65536) * 100)
      = (1 - 65535 / (0.125 : ℝ) ^ ((5 : ℝ) / 16) / 65536) * 100 :=
    min_eq_right (by linarith)
  rw [hmin]
  have hr := round2_le ((1 - 65535 / (0.125 : ℝ) ^ ((5 : ℝ) / 16) / 65536) * 100)
  linarith

/-- C1 (amended): for positive inputs the multiplicative variant (`app.py`)
always returns a value in [0, 100]; the additive variant
(`pokemon_catchrate.py`) always returns a value ≤ 100, and a value ≥ 0
whenever its scale factor is at least 1 (the counterexample shows the lower
bound genuinely fails for small scale factors). -/
theorem C1_theorem (cr cp ball tech berry : ℝ) (tc : ℕ) (hcr : 0 < cr)
    (hcp : 0 < cp) (hball : 0 < ball) (htech : 0 < tech) (hberry : 0 < berry) :
    (0 ≤ App.catchrate_calc cr tc cp ball tech berry ∧
      App.catchrate_calc cr tc cp ball tech berry ≤ 100) ∧
    PC.catchrate_calc cr tc cp ball tech berry ≤ 100 ∧
    (1 ≤ PC.scale cr tc cp ball tech berry →
      0 ≤ PC.catchrate_calc cr tc cp ball tech berry) := by
  have hsA := App.scale_pos_app tc hcr hcp hball htech hberry
  refine ⟨⟨?_, ?_⟩, ?_, ?_⟩
  · simp only [App.catchrate_calc]
    set s := App.scale cr tc cp ball tech berry with hsdef
    have h3 : (0 : ℝ) < (255 / s) ^ ((1 : ℝ) / 5.33) :=
      Real.rpow_pos_of_pos (div_pos (by norm_num) hsA) _
    have h4 : (0 : ℝ) ≤ 65535 / (255 / s) ^ ((1 : ℝ) / 5.33) / 65535 * 100 :=
      (mul_pos (div_pos (div_pos (by norm_num) h3) (by norm_num))
        (by norm_num)).le
    exact round2_nonneg (le_min (by norm_num) h4)
  · simp only [App.catchrate_calc]
    exact round2_le_hundred (min_le_left _ _)
  · simp only [PC.catchrate_calc]
    exact round2_le_hundred (min_le_left _ _)
  · intro h1
    simp only [PC.catchrate_calc]
    set s := PC.scale cr tc cp ball tech berry with hsdef
    have hpow : (1 : ℝ) ^ (16 : ℕ) ≤ s ^ (5 : ℕ) := by
      have := pow_le_pow_left₀ (by norm_num : (0 : ℝ) ≤ 1) h1 5
      simpa using this
    have ht1 : (1 : ℝ) ≤ s ^ ((5 : ℝ) / 16) :=
      @le_rpow_of_pow_le s 1 ((5 : ℝ) / 16) 5 16 (by linarith) (by norm_num)
        (by norm_num) (by norm_num) hpow
    have hb : (65535 : ℝ) / s ^ ((5 : ℝ) / 16) ≤ 65535 := by
      have h := div_le_div_of_nonneg_left
        (by norm_num : (0 : ℝ) ≤ 65535) (by norm_num : (0 : ℝ) < 1) ht1
      simpa using h
    have hpre : (0 : ℝ) ≤ (1 - 65535 / s ^ ((5 : ℝ) / 16) / 65536) * 100 := by
      linarith
    exact round2_nonneg (le_min (by norm_num) hpre)

/-- C1 (witness): the amended theorem at base rate 1, counter 100, combat
power 1 and unit multipliers, where the additive scale factor is at least 1,
so all four bounds hold. -/
theorem C1_witness :
    (1 ≤ PC.scale 1 100 1 1 1 1) ∧
    ((0 ≤ App.catchrate_calc 1 100 1 1 1 1 ∧
        App.catchrate_calc 1 100 1 1 1 1 ≤ 100) ∧
      PC.catchrate_calc 1 100 1 1 1 1 ≤ 100 ∧
      (1 ≤ PC.scale 1 100 1 1 1 1 → 0 ≤ PC.catchrate_calc 1 100 1 1 1 1)) ∧
    0 ≤ PC.catchrate_calc 1 100 1 1 1 1 := by
  have h := C1_theorem 1 1 1 1 1 100 (by norm_num) (by norm_num) (by norm_num)
    (by norm_num) (by norm_num)
  exact ⟨PC.scale_unit_ge_one, h, h.2.2 PC.scale_unit_ge_one⟩

/-- C6: with base rate, counter, combat power fixed and positive multipliers,
raising the ball, technique or berry multiplier (jointly or separately) never
decreases the returned probability, in both variants. -/
theorem C6_theorem (cr cp ball ball' tech tech' berry berry' : ℝ) (tc : ℕ)
    (hcr : 0 < cr) (hcp : 0 < cp) (hball : 0 < ball) (htech : 0 < tech)
    (hberry : 0 < berry) (hb : ball ≤ ball') (ht : tech ≤ tech')
    (hbe : berry ≤ berry') :
    App.catchrate_calc cr tc cp ball tech berry
      ≤ App.catchrate_calc cr tc cp ball' tech' berry' ∧
    PC.catchrate_calc cr tc cp ball tech berry
      ≤ PC.catchrate_calc cr tc cp ball' tech' berry' :=
  ⟨App.catchrate_calc_mono_app (App.scale_pos_app tc hcr hcp hball htech hberry)
      (App.scale_mono_app tc hcr hcp hball htech hberry hb ht hbe),
    PC.catchrate_calc_mono_pc (PC.scale_pos_pc tc hcr hcp hball htech hberry)
      (PC.scale_mono_pc tc hcr hcp hball htech hberry hb ht hbe)⟩

/-- C6 (witness): upgrading from a plain ball, no technique bonus, no berry
(multipliers 1, 1, 1) to an ultra ball, nice throw and golden razz
(2, 1.1, 1.5) never lowers the displayed rate. -/
theorem C6_witness :
    App.catchrate_calc 190 0 100 1 1 1 ≤ App.catchrate_calc 190 0 100 2 1.1 1.5 ∧
    PC.catchrate_calc 190 0 100 1 1 1 ≤ PC.catchrate_calc 190 0 100 2 1.1 1.5 :=
  C6_theorem 190 100 1 2 1 1.1 1 1.5 0 (by norm_num) (by norm_num) (by norm_num)
    (by norm_num) (by norm_num) (by norm_num) (by norm_num) (by norm_num)

theorem App.scale_c2_eval_app : App.scale 1 100 50 1 2 2 = 25 := by
  rw [App.scale_eq_app]
  have hmin : min (100 : ℝ) ((100 : ℕ) : ℝ) = 100 := by norm_num
  rw [hmin]
  have hX : (10000 : ℝ) / ((100 - (100 : ℝ)) / 100 * 50 + 1) = 10000 := by norm_num
  rw [hX]
  have e2 : (10000 : ℝ) ^ ((1 : ℝ) / 4) = 10 :=
    @rpow_eq_of_pow_eq 10000 10 ((1 : ℝ) / 4) 1 4 (by norm_num) (by norm_num)
      (by norm_num) (by norm_num) (by norm_num)
  have e4 : ((2 : ℝ) * 2) ^ ((1 : ℝ) / 2) = 2 := by
    have h22 : ((2 : ℝ) * 2) = 4 := by norm_num
    rw [h22]
    exact @rpow_eq_of_pow_eq 4 2 ((1 : ℝ) / 2) 1 2 (by norm_num) (by norm_num)
      (by norm_num) (by norm_num) (by norm_num)
  rw [e2, e4, Real.one_rpow, Real.one_rpow]
  norm_num

theorem PC.scale_c2_eval_pc : PC.scale 1 100 50 1 2 2 = 25 := by
  rw [PC.scale_eq_pc]
  have hmin : min (100 : ℝ) ((100 : ℕ) : ℝ) = 100 := by norm_num
  rw [hmin]
  have hX : (10000 : ℝ) / ((100 - (100 : ℝ)) / 100 * 50 + 1) = 10000 := by norm_num
  rw [hX]
  have e2 : (10000 : ℝ) ^ ((1 : ℝ) / 4) = 10 :=
    @rpow_eq_of_pow_eq 10000 10 ((1 : ℝ) / 4) 1 4 (by norm_num) (by norm_num)
      (by norm_num) (by norm_num) (by norm_num)
  have e4 : ((2 : ℝ) + 2) ^ ((1 : ℝ) / 2) = 2 := by
    have h22 : ((2 : ℝ) + 2) = 4 := by norm_num
    rw [h22]
    exact @rpow_eq_of_pow_eq 4 2 ((1 : ℝ) / 2) 1 2 (by norm_num) (by norm_num)
      (by norm_num) (by norm_num) (by norm_num)
  rw [e2, e4, Real.one_rpow, Real.one_rpow]
  norm_num

theorem App.scale_c9 :
    (67.2339106679 : ℝ) ≤ App.scale 190 0 100 1 1 1 ∧
    App.scale 190 0 100 1 1 1 ≤ 67.2339106705 := by
  rw [App.scale_eq_app]
  have hmin : min (100 : ℝ) ((0 : ℕ) : ℝ) = 0 := by norm_num
  rw [hmin]
  have hX : (10000 : ℝ) / ((100 - (0 : ℝ)) / 100 * 100 + 1) = 10000 / 101 := by
    norm_num
  rw [hX]
  have h11 : ((1 : ℝ) * 1) = 1 := by norm_num
  rw [h11, Real.one_rpow, Real.one_rpow, mul_one, mul_one]
  have hu1 : (17.0513474203 : ℝ) ≤ (190 : ℝ) ^ ((1 : ℝ) / 1.85) :=
    @le_rpow_of_pow_le 190 17.0513474203 ((1 : ℝ) / 1.85) 20 37 (by norm_num)
      (by norm_num) (by norm_num) (by norm_num) (by norm_num)
  have hu2 : (190 : ℝ) ^ ((1 : ℝ) / 1.85) ≤ 17.0513474204 :=
    @rpow_le_of_pow_le 190 17.0513474204 ((1 : ℝ) / 1.85) 20 37 (by norm_num)
      (by norm_num) (by norm_num) (by norm_num) (by norm_num)
  have hv1 : (3.154421009 : ℝ) ≤ ((10000 : ℝ) / 101) ^ ((1 : ℝ) / 4) :=
    @le_rpow_of_pow_le (10000 / 101) 3.154421009 ((1 : ℝ) / 4) 1 4 (by norm_num)
      (by norm_num) (by norm_num) (by norm_num) (by norm_num)
  have hv2 : ((10000 : ℝ) / 101) ^ ((1 : ℝ) / 4) ≤ 3.1544210091 :=
    @rpow_le_of_pow_le (10000 / 101) 3.1544210091 ((1 : ℝ) / 4) 1 4 (by norm_num)
      (by norm_num) (by norm_num) (by norm_num) (by norm_num)
  constructor
  · have hlo : (17.0513474203 : ℝ) * 3.154421009
        ≤ (190 : ℝ) ^ ((1 : ℝ) / 1.85) * ((10000 : ℝ) / 101) ^ ((1 : ℝ) / 4) :=
      mul_le_mul hu1 hv1 (by norm_num) (le_trans (by norm_num) hu1)
    nlinarith [hlo]
  · have hhi : (190 : ℝ) ^ ((1 : ℝ) / 1.85) * ((10000 : ℝ) / 101) ^ ((1 : ℝ) / 4)
        ≤ (17.0513474204 : ℝ) * 3.1544210091 :=
      mul_le_mul hu2 hv2 (Real.rpow_nonneg (by norm_num) _) (by norm_num)
    nlinarith [hhi]

theorem App.c9_T_bounds :
    (1.2841665 : ℝ) ≤ (255 / App.scale 190 0 100 1 1 1) ^ ((1 : ℝ) / 5.33) ∧
    (255 / App.scale 190 0 100 1 1 1) ^ ((1 : ℝ) / 5.33) ≤ 1.2841666 := by
  obtain ⟨h1, h2⟩ := App.scale_c9
  have hs : 0 < App.scale 190 0 100 1 1 1 := lt_of_lt_of_le (by norm_num) h1
  have hq1 : 255 / App.scale 190 0 100 1 1 1 ≤ 255 / 67.2339106679 :=
    div_le_div_of_nonneg_left (by norm_num) (by norm_num) h1
  have hq2 : (255 : ℝ) / 67.2339106705 ≤ 255 / App.scale 190 0 100 1 1 1 :=
    div_le_div_of_nonneg_left (by norm_num) hs h2
  constructor
  · have ha : ((255 : ℝ) / 67.2339106705) ^ ((1 : ℝ) / 5.33)
        ≤ (255 / App.scale 190 0 100 1 1 1) ^ ((1 : ℝ) / 5.33) :=
      Real.rpow_le_rpow (by norm_num) hq2 (by norm_num)
    have hb : (1.2841665 : ℝ) ≤ ((255 : ℝ) / 67.2339106705) ^ ((1 : ℝ) / 5.33) :=
      @le_rpow_of_pow_le (255 / 67.2339106705) 1.2841665 ((1 : ℝ) / 5.33) 100 533
        (by norm_num) (by norm_num) (by norm_num) (by norm_num) (by norm_num)
    linarith
  · have ha : (255 / App.scale 190 0 100 1 1 1) ^ ((1 : ℝ) / 5.33)
        ≤ ((255 : ℝ) / 67.2339106679) ^ ((1 : ℝ) / 5.33) :=
      Real.rpow_le_rpow (div_pos (by norm_num) hs).le hq1 (by norm_num)
    have hb : ((255 : ℝ) / 67.2339106679) ^ ((1 : ℝ) / 5.33) ≤ 1.2841666 :=
      @rpow_le_of_pow_le (255 / 67.2339106679) 1.2841666 ((1 : ℝ) / 5.33) 100 533
        (by norm_num) (by norm_num) (by norm_num) (by norm_num) (by norm_num)
    linarith

theorem App.c9_result : App.catchrate_calc 190 0 100 1 1 1 = 77.87 := by
  obtain ⟨hT1, hT2⟩ := App.c9_T_bounds
  simp only [App.catchrate_calc]
  have hT0 : (0 : ℝ) < (255 / App.scale 190 0 100 1 1 1) ^ ((1 : ℝ) / 5.33) :=
    lt_of_lt_of_le (by norm_num) hT1
  have hlo : (65535 : ℝ) / 1.2841666
      ≤ 65535 / (255 / App.scale 190 0 100 1 1 1) ^ ((1 : ℝ) / 5.33) :=
    div_le_div_of_nonneg_left (by norm_num) hT0 hT2
  have hhi : (65535 : ℝ) / (255 / App.scale 190 0 100 1 1 1) ^ ((1 : ℝ) / 5.33)
      ≤ 65535 / 1.2841665 :=
    div_le_div_of_nonneg_left (by norm_num) (by norm_num) hT1
  have hval_lo : (77.871 : ℝ)
      ≤ 65535 / (255 / App.scale 190 0 100 1 1 1) ^ ((1 : ℝ) / 5.33) / 65535 * 100 := by
    linarith
  have hval_hi :
      (65535 : ℝ) / (255 / App.scale 190 0 100 1 1 1) ^ ((1 : ℝ) / 5.33) / 65535 * 100
        ≤ 77.8716 := by
    linarith
  have hmin : min (100 : ℝ)
      (65535 / (255 / App.scale 190 0 100 1 1 1) ^ ((1 : ℝ) / 5.33) / 65535 * 100)
      = 65535 / (255 / App.scale 190 0 100 1 1 1) ^ ((1 : ℝ) / 5.33) / 65535 * 100 :=
    min_eq_right (by linarith)
  rw [hmin]
  have hr := round2_eq_div
    (65535 / (255 / App.scale 190 0 100 1 1 1) ^ ((1 : ℝ) / 5.33) / 65535 * 100)
    7787 (by push_cast; linarith) (by push_cast; linarith)
  rw [hr]
  norm_num

/-- C2: the two catch-rate formulas disagree.  At base rate 1, counter 100,
combat power 50, ball multiplier 1, technique and berry multipliers 2, the
multiplicative variant returns at least 64.51 while the additive variant
returns at most 63.51, so the two embedded functions differ at this input. -/
theorem C2_theorem :
    App.catchrate_calc 1 100 50 1 2 2 ≠ PC.catchrate_calc 1 100 50 1 2 2 := by
  have happ : (64.51 : ℝ) ≤ App.catchrate_calc 1 100 50 1 2 2 := by
    simp only [App.catchrate_calc, App.scale_c2_eval_app]
    have hT2 : ((255 : ℝ) / 25) ^ ((1 : ℝ) / 5.33) ≤ 1.55 :=
      @rpow_le_of_pow_le (255 / 25) 1.55 ((1 : ℝ) / 5.33) 100 533 (by norm_num)
        (by norm_num) (by norm_num) (by norm_num) (by norm_num)
    have hT1 : (1 : ℝ) ≤ ((255 : ℝ) / 25) ^ ((1 : ℝ) / 5.33) :=
      @le_rpow_of_pow_le (255 / 25) 1 ((1 : ℝ) / 5.33) 100 533 (by norm_num)
        (by norm_num) (by norm_num) (by norm_num) (by norm_num)
    have hT0 : (0 : ℝ) < ((255 : ℝ) / 25) ^ ((1 : ℝ) / 5.33) := by linarith
    have hlo : (65535 : ℝ) / 1.55 ≤ 65535 / ((255 : ℝ) / 25) ^ ((1 : ℝ) / 5.33) :=
      div_le_div_of_nonneg_left (by norm_num) hT0 hT2
    have hhi : (65535 : ℝ) / ((255 : ℝ) / 25) ^ ((1 : ℝ) / 5.33) ≤ 65535 := by
      have h := div_le_div_of_nonneg_left
        (by norm_num : (0 : ℝ) ≤ 65535) (by norm_num : (0 : ℝ) < 1) hT1
      simpa using h
    have hval_lo : (64.516 : ℝ)
        ≤ 65535 / ((255 : ℝ) / 25) ^ ((1 : ℝ) / 5.33) / 65535 * 100 := by linarith
    have hval_hi :
        (65535 : ℝ) / ((255 : ℝ) / 25) ^ ((1 : ℝ) / 5.33) / 65535 * 100 ≤ 100 := by
      linarith
    have hmin : min (100 : ℝ)
        (65535 / ((255 : ℝ) / 25) ^ ((1 : ℝ) / 5.33) / 65535 * 100)
        = 65535 / ((255 : ℝ) / 25) ^ ((1 : ℝ) / 5.33) / 65535 * 100 :=
      min_eq_right hval_hi
    rw [hmin]
    have h := le_round2 (65535 / ((255 : ℝ) / 25) ^ ((1 : ℝ) / 5.33) / 65535 * 100)
    linarith
  have hpc : PC.catchrate_calc 1 100 50 1 2 2 ≤ 63.51 := by
    simp only [PC.catchrate_calc, PC.scale_c2_eval_pc]
    have ht2 : (25 : ℝ) ^ ((5 : ℝ) / 16) ≤ 2.74 :=
      @rpow_le_of_pow_le 25 2.74 ((5 : ℝ) / 16) 5 16 (by norm_num) (by norm_num)
        (by norm_num) (by norm_num) (by norm_num)
    have ht0 : (0 : ℝ) < (25 : ℝ) ^ ((5 : ℝ) / 16) :=
      Real.rpow_pos_of_pos (by norm_num) _
    have hb : (65535 : ℝ) / 2.74 ≤ 65535 / (25 : ℝ) ^ ((5 : ℝ) / 16) :=
      div_le_div_of_nonneg_left (by norm_num) ht0 ht2
    have hpre : (1 - 65535 / (25 : ℝ) ^ ((5 : ℝ) / 16) / 65536) * 100 ≤ 63.505 := by
      linarith
    have h1 := round2_mono (min_le_right (100 : ℝ)
      ((1 - 65535 / (25 : ℝ) ^ ((5 : ℝ) / 16) / 65536) * 100))
    have h2 := round2_le ((1 - 65535 / (25 : ℝ) ^ ((5 : ℝ) / 16) / 65536) * 100)
    linarith
  intro heq
  rw [heq] at happ
  linarith

/-- C9 (counterexample): at base rate 190, counter 0, combat power 100 and
unit multipliers, the multiplicative formula returns exactly 77.87, not
(approximately) 77.91 as the claim states: the two-decimal output differs
from the claimed value by 0.04. -/
theorem C9_counterexample :
    App.catchrate_calc 190 0 100 1 1 1 = 77.87 ∧ (77.87 : ℝ) ≠ 77.91 :=
  ⟨App.c9_result, by norm_num⟩

/-- C9 (amended): at base rate 190, counter 0, combat power 100 and unit
multipliers, the multiplicative formula produces a scale factor in
[67.233, 67.234] (≈ 67.23, not 67.26), a residual in [51033.0, 51033.2]
(≈ 51033.1, not 51038.9), a final probability of exactly 77.87 (not 77.91),
and the classifier maps the result to "gold" (medium-high), as claimed. -/
theorem C9_theorem :
    (67.233 : ℝ) ≤ App.scale 190 0 100 1 1 1 ∧
    App.scale 190 0 100 1 1 1 ≤ 67.234 ∧
    (51033.0 : ℝ)
      ≤ 65535 / (255 / App.scale 190 0 100 1 1 1) ^ ((1 : ℝ) / 5.33) ∧
    65535 / (255 / App.scale 190 0 100 1 1 1) ^ ((1 : ℝ) / 5.33) ≤ 51033.2 ∧
    App.catchrate_calc 190 0 100 1 1 1 = 77.87 ∧
    App.catchring_color (App.catchrate_calc 190 0 100 1 1 1) = "gold" := by
  obtain ⟨h1, h2⟩ := App.scale_c9
  obtain ⟨hT1, hT2⟩ := App.c9_T_bounds
  have hT0 : (0 : ℝ) < (255 / App.scale 190 0 100 1 1 1) ^ ((1 : ℝ) / 5.33) :=
    lt_of_lt_of_le (by norm_num) hT1
  have hb1 : (65535 : ℝ) / 1.2841666
      ≤ 65535 / (255 / App.scale 190 0 100 1 1 1) ^ ((1 : ℝ) / 5.33) :=
    div_le_div_of_nonneg_left (by norm_num) hT0 hT2
  have hb2 : (65535 : ℝ) / (255 / App.scale 190 0 100 1 1 1) ^ ((1 : ℝ) / 5.33)
      ≤ 65535 / 1.2841665 :=
    div_le_div_of_nonneg_left (by norm_num) (by norm_num) hT1
  refine ⟨by linarith, by linarith, by linarith, by linarith, App.c9_result, ?_⟩
  rw [App.c9_result]
  unfold App.catchring_color
  rw [if_neg (by norm_num), if_neg (by rintro ⟨-, hc⟩; norm_num at hc),
    if_pos ⟨by norm_num, by norm_num⟩]

/-- C3 (counterexample): an unresolved species lookup does not fail with a
`NotFoundError` naming the unresolved identifier: `catch_pokemon` returns the
sentinel `None` after printing the fixed text "Pokemon not found", and two
distinct unknown identifiers produce the exact same output, so the output
names neither identifier. -/
theorem C3_counterexample :
    App.catch_pokemon emptyDb "unknown-id" 100 "pokeball" "none"
        = (["Pokemon not found"], none) ∧
    App.catch_pokemon emptyDb "another-id" 100 "pokeball" "none"
        = (["Pokemon not found"], none) ∧
    PC.catch_pokemon emptyDb "unknown-id" 100 "pokeball" "none"
        = (["Pokemon not found"], none) ∧
    "unknown-id" ≠ "another-id" :=
  ⟨rfl, rfl, rfl, by decide⟩

/-- C3 (amended): when the species, ball or berry identifier does not resolve,
`catch_pokemon` (both variants) prints a fixed message naming only the
category of the failed lookup ("Pokemon/Ball/Berry not found") and returns the
sentinel `None` instead of a probability table; no probability row is
produced.  The technique identifier is never validated (techniques are
enumerated from the table itself), and the times-caught and chain state are
untouched (`catch_pokemon` reads no mutable state). -/
theorem C3_theorem (db : Database) (p ball berry : String) (cp : ℝ) :
    (db.pokemon p = none →
      App.catch_pokemon db p cp ball berry = (["Pokemon not found"], none) ∧
      PC.catch_pokemon db p cp ball berry = (["Pokemon not found"], none)) ∧
    (∀ sp, db.pokemon p = some sp → db.ball_rate ball = none →
      App.catch_pokemon db p cp ball berry = (["Ball not found"], none) ∧
      PC.catch_pokemon db p cp ball berry = (["Ball not found"], none)) ∧
    (∀ sp r, db.pokemon p = some sp → db.ball_rate ball = some r →
      db.berry berry = none →
      App.catch_pokemon db p cp ball berry = (["Berry not found"], none) ∧
      PC.catch_pokemon db p cp ball berry = (["Berry not found"], none)) := by
  refine ⟨fun h => ?_, fun sp h1 h2 => ?_, fun sp r h1 h2 h3 => ?_⟩
  · constructor <;> simp [App.catch_pokemon, PC.catch_pokemon, h]
  · constructor <;> simp [App.catch_pokemon, PC.catch_pokemon, h1, h2]
  · constructor <;> simp [App.catch_pokemon, PC.catch_pokemon, h1, h2, h3]

/-- C3 (witness): concrete instance of the amended theorem on the empty
database. -/
theorem C3_witness :
    App.catch_pokemon emptyDb "missingno" 100 "pokeball" "none"
        = (["Pokemon not found"], none) ∧
    PC.catch_pokemon emptyDb "missingno" 100 "pokeball" "none"
        = (["Pokemon not found"], none) :=
  (C3_theorem emptyDb "missingno" "pokeball" "none" 100).1 rfl

/-- C4: the chain law, in both variants.  A capture of the species last
captured increments the streak; a capture of a different species sets the
streak to 1 and records the new species; a reset sets the streak to 0 and the
sentinel text "No chain". -/
theorem C4_theorem :
    (∀ (st : App.State) (A sr : String), st.chain.pokemonname = A →
      (App.triggers_handler .add1_btn A sr st).chain.chainvalue
        = st.chain.chainvalue + 1) ∧
    (∀ (st : App.State) (B sr : String), st.chain.pokemonname ≠ B →
      (App.triggers_handler .add1_btn B sr st).chain.chainvalue = 1 ∧
      (App.triggers_handler .add1_btn B sr st).chain.pokemonname = B) ∧
    (∀ (st : App.State) (name sr : String),
      (App.triggers_handler .resetchain_btn name sr st).chain.chainvalue = 0 ∧
      (App.triggers_handler .resetchain_btn name sr st).chain.chaintext
        = "No chain") ∧
    (∀ (st : PC.State) (A sr : String), st.chain.last_catch = A →
      (PC.update_catchrates_triggers .add1_btn A sr st).chain.chainvalue
        = st.chain.chainvalue + 1) ∧
    (∀ (st : PC.State) (B sr : String), st.chain.last_catch ≠ B →
      (PC.update_catchrates_triggers .add1_btn B sr st).chain.chainvalue = 1 ∧
      (PC.update_catchrates_triggers .add1_btn B sr st).chain.last_catch = B) ∧
    (∀ (st : PC.State) (name sr : String),
      (PC.update_catchrates_triggers .resetchain_btn name sr st).chain.chainvalue
        = 0 ∧
      (PC.update_catchrates_triggers .resetchain_btn name sr st).chain.chaintext
        = "No chain") := by
  refine ⟨fun st A sr h => ?_, fun st B sr h => ?_, fun st name sr => ?_,
    fun st A sr h => ?_, fun st B sr h => ?_, fun st name sr => ?_⟩
  · simp [App.triggers_handler, h]
  · constructor <;> simp [App.triggers_handler, h]
  · constructor <;> simp [App.triggers_handler]
  · simp [PC.update_catchrates_triggers, h]
  · constructor <;> simp [PC.update_catchrates_triggers, h]
  · constructor <;> simp [PC.update_catchrates_triggers]

/-- C4 (witness): concrete instance, capturing "bulbasaur" when the chain last
recorded "pikachu". -/
theorem C4_witness :
    (App.triggers_handler .add1_btn "bulbasaur" "No"
        ⟨fun _ => 0, fun _ => "No", ⟨"pikachu", 3, "t"⟩⟩).chain.chainvalue = 1 ∧
    (App.triggers_handler .add1_btn "bulbasaur" "No"
        ⟨fun _ => 0, fun _ => "No", ⟨"pikachu", 3, "t"⟩⟩).chain.pokemonname
      = "bulbasaur" :=
  C4_theorem.2.1 ⟨fun _ => 0, fun _ => "No", ⟨"pikachu", 3, "t"⟩⟩
    "bulbasaur" "No" (by decide)

/-- C5: the ring-colour classifier maps `p < 70` to "red", `70 ≤ p < 75` to
"orange", `75 ≤ p < 80` to "gold" and `80 ≤ p` to "green", in both variants;
boundary values 70, 75, 80 land in the upper interval and 69.99 is "red". -/
theorem C5_theorem :
    (∀ p : ℝ, p < 70 →
      App.catchring_color p = "red" ∧ PC.catchring_color p = "red") ∧
    (∀ p : ℝ, 70 ≤ p → p < 75 →
      App.catchring_color p = "orange" ∧ PC.catchring_color p = "orange") ∧
    (∀ p : ℝ, 75 ≤ p → p < 80 →
      App.catchring_color p = "gold" ∧ PC.catchring_color p = "gold") ∧
    (∀ p : ℝ, 80 ≤ p →
      App.catchring_color p = "green" ∧ PC.catchring_color p = "green") ∧
    App.catchring_color 70 = "orange" ∧ App.catchring_color 69.99 = "red" ∧
    App.catchring_color 75 = "gold" ∧ App.catchring_color 80 = "green" ∧
    PC.catchring_color 70 = "orange" ∧ PC.catchring_color 69.99 = "red" ∧
    PC.catchring_color 75 = "gold" ∧ PC.catchring_color 80 = "green" := by
  have happ : ∀ p : ℝ, (p < 70 → App.catchring_color p = "red") ∧
      (70 ≤ p → p < 75 → App.catchring_color p = "orange") ∧
      (75 ≤ p → p < 80 → App.catchring_color p = "gold") ∧
      (80 ≤ p → App.catchring_color p = "green") := by
    intro p
    unfold App.catchring_color
    refine ⟨fun h => ?_, fun h1 h2 => ?_, fun h1 h2 => ?_, fun h => ?_⟩
    · rw [if_pos h]
    · rw [if_neg (by linarith), if_pos ⟨h1, h2⟩]
    · rw [if_neg (by linarith), if_neg (by rintro ⟨-, h⟩; linarith),
        if_pos ⟨h1, h2⟩]
    · rw [if_neg (by linarith), if_neg (by rintro ⟨-, h⟩; linarith),
        if_neg (by rintro ⟨-, h⟩; linarith)]
  have hpc : ∀ p : ℝ, (p < 70 → PC.catchring_color p = "red") ∧
      (70 ≤ p → p < 75 → PC.catchring_color p = "orange") ∧
      (75 ≤ p → p < 80 → PC.catchring_color p = "gold") ∧
      (80 ≤ p → PC.catchring_color p = "green") := by
    intro p
    unfold PC.catchring_color
    refine ⟨fun h => ?_, fun h1 h2 => ?_, fun h1 h2 => ?_, fun h => ?_⟩
    · rw [if_pos h]
    · rw [if_neg (by linarith), if_pos ⟨h1, h2⟩]
    · rw [if_neg (by linarith), if_neg (by rintro ⟨-, h⟩; linarith),
        if_pos ⟨h1, h2⟩]
    · rw [if_neg (by linarith), if_neg (by rintro ⟨-, h⟩; linarith),
        if_neg (by rintro ⟨-, h⟩; linarith)]
  refine ⟨fun p h => ⟨(happ p).1 h, (hpc p).1 h⟩,
    fun p h1 h2 => ⟨(happ p).2.1 h1 h2, (hpc p).2.1 h1 h2⟩,
    fun p h1 h2 => ⟨(happ p).2.2.1 h1 h2, (hpc p).2.2.1 h1 h2⟩,
    fun p h => ⟨(happ p).2.2.2 h, (hpc p).2.2.2 h⟩,
    (happ 70).2.1 (by norm_num) (by norm_num),
    (happ 69.99).1 (by norm_num),
    (happ 75).2.2.1 (by norm_num) (by norm_num),
    (happ 80).2.2.2 (by norm_num),
    (hpc 70).2.1 (by norm_num) (by norm_num),
    (hpc 69.99).1 (by norm_num),
    (hpc 75).2.2.1 (by norm_num) (by norm_num),
    (hpc 80).2.2.2 (by norm_num)⟩

/-- C5 (witness): the classifier at the concrete boundary input 70. -/
theorem C5_witness :
    App.catchring_color 72 = "orange" ∧ PC.catchring_color 72 = "orange" :=
  C5_theorem.2.1 72 (by norm_num) (by norm_num)

/-- C7: the rate formula reads the times-caught counter only through
`min(100, timesCaught)` — any stored value of at least 100 gives the same
result as exactly 100 — while each capture event (`add1_btn`) increments the
stored counter itself by exactly 1 with no upper bound. -/
theorem C7_theorem :
    (∀ (cr cp ball tech berry : ℝ) (tc : ℕ), 100 ≤ tc →
      App.catchrate_calc cr tc cp ball tech berry
        = App.catchrate_calc cr 100 cp ball tech berry) ∧
    (∀ (st : App.State) (name sr : String),
      (App.triggers_handler .add1_btn name sr st).times_caught name
        = st.times_caught name + 1) := by
  constructor
  · intro cr cp ball tech berry tc h
    simp only [App.catchrate_calc, App.scale_cap h]
  · intro st name sr
    simp [App.triggers_handler]

/-- C7 (witness): a stored counter of 250 behaves like 100, and one capture on
a counter already at 250 stores 251. -/
theorem C7_witness :
    App.catchrate_calc 190 250 100 1 1 1 = App.catchrate_calc 190 100 100 1 1 1 ∧
    (App.triggers_handler .add1_btn "pikachu" "No"
        ⟨fun _ => 250, fun _ => "No", ⟨"pikachu", 3, "t"⟩⟩).times_caught "pikachu"
      = 251 :=
  ⟨C7_theorem.1 190 100 1 1 1 250 (by norm_num),
   C7_theorem.2 ⟨fun _ => 250, fun _ => "No", ⟨"pikachu", 3, "t"⟩⟩ "pikachu" "No"⟩

/-- C10: in the multiplicative variant, once the stored times-caught counter
is at least 100 the returned probability no longer depends on combat power:
the capped counter makes the combat-power term `(10000 / 1)^(1/4)`. -/
theorem C10_theorem (cr ball tech berry cp1 cp2 : ℝ) (tc : ℕ)
    (h : 100 ≤ tc) (_h1 : 0 < cp1) (_h2 : 0 < cp2) :
    App.catchrate_calc cr tc cp1 ball tech berry
      = App.catchrate_calc cr tc cp2 ball tech berry := by
  simp only [App.catchrate_calc]
  rw [@App.scale_cp_drop cr ball tech berry cp1 cp2 tc h]

/-- C10 (witness): at a stored counter of 100, combat powers 1 and 5000 give
the same output. -/
theorem C10_witness :
    App.catchrate_calc 190 100 1 1 1 1 = App.catchrate_calc 190 100 5000 1 1 1 :=
  C10_theorem 190 1 1 1 1 5000 100 (by norm_num) (by norm_num) (by norm_num)

/-- C8 (counterexample): the code performs no combat-power validation.  With
every identifier resolved and a non-positive combat power of 0, both variants
of `catch_pokemon` print nothing and return a full probability list — no
`InvalidInputError`, no abort. -/
theorem C8_counterexample :
    (App.catch_pokemon oneMonDb "pikachu" 0 "pokeball" "none").1 = [] ∧
    ((App.catch_pokemon oneMonDb "pikachu" 0 "pokeball" "none").2).isSome = true ∧
    (PC.catch_pokemon oneMonDb "pikachu" 0 "pokeball" "none").1 = [] ∧
    ((PC.catch_pokemon oneMonDb "pikachu" 0 "pokeball" "none").2).isSome = true ∧
    ¬ (0 : ℝ) > 0 :=
  ⟨rfl, rfl, rfl, rfl, by norm_num⟩

/-- C8 (amended): `catch_pokemon` never validates combat power and no
`InvalidInputError` exists in the code: a call with a non-positive combat
power is not rejected.  On the domain where the source's float arithmetic
completes — positive table values and a combat power keeping the inner
denominator `(100 - effectiveCaptures)/100 * cp + 1` positive, which includes
the non-positive value `cp = 0` — the call prints nothing and returns one
probability row per technique.  (Outside that domain the source aborts with a
`ZeroDivisionError` at `cp = -1`, or a `TypeError` from complex promotion for
more negative powers in the additive file — still never an
`InvalidInputError`; those arithmetic-error paths are outside this real
embedding, so the theorem is stated only on the domain above.) -/
theorem C8_theorem (db : Database) (p ball berry : String) (cp : ℝ)
    (sp : SpeciesRec) (r br : ℝ) (hp : db.pokemon p = some sp)
    (hb : db.ball_rate ball = some r) (hbe : db.berry berry = some br)
    (_hcr : 0 < sp.catch_rate) (_hr : 0 < r) (_hbr : 0 < br)
    (_htech : ∀ t ∈ db.technique, 0 < t.2)
    (_hD : 0 < (100 - min 100 ((sp.times_caught : ℕ) : ℝ)) / 100 * cp + 1) :
    App.catch_pokemon db p cp ball berry
      = ([], some (db.technique.map fun t =>
          (t.1, App.catchrate_calc sp.catch_rate sp.times_caught cp r t.2 br))) ∧
    PC.catch_pokemon db p cp ball berry
      = ([], some (db.technique.map fun t =>
          (t.1, PC.catchrate_calc sp.catch_rate sp.times_caught cp r t.2 br))) := by
  constructor <;> simp [App.catch_pokemon, PC.catch_pokemon, hp, hb, hbe]

/-- C8 (witness): the amended theorem at the one-entry database with the
non-positive combat power 0, where the inner denominator is 1 > 0 and every
table value is positive. -/
theorem C8_witness :
    (App.catch_pokemon oneMonDb "pikachu" 0 "pokeball" "none").1 = [] ∧
    (PC.catch_pokemon oneMonDb "pikachu" 0 "pokeball" "none").1 = [] := by
  have htech : ∀ t ∈ oneMonDb.technique, (0 : ℝ) < t.2 := by
    have he : oneMonDb.technique = [("none", (1 : ℝ))] := rfl
    rw [he]
    intro t ht
    rw [List.mem_singleton] at ht
    rw [ht]
    norm_num
  have h := C8_theorem oneMonDb "pikachu" "pokeball" "none" 0 ⟨190, 0⟩ 1 1
    rfl rfl rfl (by norm_num) (by norm_num) (by norm_num) htech (by norm_num)
  exact ⟨by rw [h.1], by rw [h.2]⟩

end PokemonCatcher
